import Mathlib

/-!
# Verification of the system-service monitor core

Shallow embedding of `server/monitor-types/system-service.js`: the output
truncation helper, the shell-argument escaper, the SSH URL parser, the SSH
command construction, and the four platform check strategies.  Subprocess
execution is abstracted as a function from a spawned command to its observed
outcome, and each strategy additionally returns the list of commands it
spawned, so that "no subprocess is spawned" is a statement about that list.

JavaScript strings are modelled as Lean `String` (a list of characters);
`substring(0, n)` becomes `take n` on characters and `s.trim()` becomes an
explicit trim over the JavaScript whitespace class.
-/

namespace SystemService

/-! ## Character constants

Named constants for characters whose literals are awkward to write. -/

/-- The single-quote character. -/
def sq : Char := Char.ofNat 39

/-- The double-quote character. -/
def dq : Char := Char.ofNat 34

/-- The backslash character. -/
def bsl : Char := Char.ofNat 92

/-- The backquote character. -/
def bq : Char := Char.ofNat 96

/-! ## JavaScript string primitives -/

/-- JavaScript `a || b` on strings: the empty string is falsy. -/
def jsOr (a b : String) : String := if a = "" then b else a

/-- The JavaScript whitespace class used by `String.prototype.trim`:
space, tab, line and paragraph separators, NBSP, BOM, and the Unicode
space separators. -/
def isJsSpace (c : Char) : Bool :=
  c = ' ' || c.toNat = 9 || c.toNat = 10 || c.toNat = 11 || c.toNat = 12 ||
  c.toNat = 13 || c.toNat = 0xA0 || c.toNat = 0xFEFF || c.toNat = 0x1680 ||
  (0x2000 ≤ c.toNat && c.toNat ≤ 0x200A) || c.toNat = 0x2028 ||
  c.toNat = 0x2029 || c.toNat = 0x202F || c.toNat = 0x205F || c.toNat = 0x3000

/-- JavaScript `s.trim()`: drop leading and trailing whitespace. -/
def jsTrim (s : String) : String :=
  ⟨((s.data.dropWhile isJsSpace).reverse.dropWhile isJsSpace).reverse⟩

/-- JavaScript `s.substring(0, n)`: the first `n` characters. -/
def takeChars (n : Nat) (s : String) : String := ⟨s.data.take n⟩

/-- `SSH_OUTPUT_MAX_CHARS` from the source. -/
def SSH_OUTPUT_MAX_CHARS : Nat := 200

/-- `trimOutput` from the source: trim, and when the trimmed text is longer
than 200 characters cut it to 200 characters and append `"..."`. -/
def trimOutput (output : String) : String :=
  let text := jsTrim output
  if text.length > SSH_OUTPUT_MAX_CHARS then
    takeChars SSH_OUTPUT_MAX_CHARS text ++ "..."
  else
    text

/-! ## The shell-argument escaper -/

/-- Character-level body of `escapeSshArg`: JavaScript
`arg.replace(/'/g, ...)` replaces every single quote with the five-character
sequence quote, double-quote, quote, double-quote, quote. -/
def escapeBody : List Char → List Char
  | [] => []
  | c :: rest => (if c = sq then [sq, dq, sq, dq, sq] else [c]) ++ escapeBody rest

/-- `escapeSshArg` from the source: the empty string becomes `''`; any other
string is wrapped in single quotes with every embedded single quote replaced
by the close-quote/literal-quote/reopen-quote sequence. -/
def escapeSshArg (arg : String) : String :=
  if arg.data = [] then "''"
  else ⟨sq :: (escapeBody arg.data ++ [sq])⟩

/-! ## A POSIX-shell-compatible tokenizer

Word splitting and quote removal of a POSIX shell, restricted to the quoting
features (the tokenizer recognises blanks, single quotes, double quotes and
backslashes; it does not perform expansions, which never arise inside the
quoted regions the escaper produces).  `none` models a syntax error
(unterminated quote or trailing backslash). -/

/-- Tokenizer state: outside quotes, outside right after a backslash, inside
single quotes, inside double quotes, and inside double quotes right after a
backslash. -/
inductive ShState where
  | normal
  | normalEsc
  | single
  | double
  | doubleEsc
  deriving DecidableEq, Repr

/-- Blank characters that separate words. -/
def isBlank (c : Char) : Bool := c = ' ' || c.toNat = 9 || c.toNat = 10

/-- Characters whose backslash escape inside double quotes drops the
backslash: dollar, backquote, double quote, backslash. -/
def isDqEscapable (c : Char) : Bool := c = '$' || c = bq || c = dq || c = bsl

/-- Close the word in progress, if any. -/
def flushTok : Option (List Char) → List (List Char)
  | none => []
  | some w => [w]

/-- The word in progress, starting a fresh one if none is open. -/
def curOf : Option (List Char) → List Char
  | none => []
  | some w => w

/-- One-character-at-a-time shell tokenizer.  `cur = some w` means a word
`w` is in progress (possibly empty, when produced only by quotes). -/
def shTok : List Char → ShState → Option (List Char) → List (List Char) →
    Option (List (List Char))
  | [], st, cur, toks =>
    match st with
    | ShState.normal => some (toks ++ flushTok cur)
    | _ => none
  | c :: rest, st, cur, toks =>
    match st with
    | ShState.normal =>
      if isBlank c then shTok rest ShState.normal none (toks ++ flushTok cur)
      else if c = sq then shTok rest ShState.single (some (curOf cur)) toks
      else if c = dq then shTok rest ShState.double (some (curOf cur)) toks
      else if c = bsl then shTok rest ShState.normalEsc (some (curOf cur)) toks
      else shTok rest ShState.normal (some (curOf cur ++ [c])) toks
    | ShState.normalEsc => shTok rest ShState.normal (some (curOf cur ++ [c])) toks
    | ShState.single =>
      if c = sq then shTok rest ShState.normal cur toks
      else shTok rest ShState.single (some (curOf cur ++ [c])) toks
    | ShState.double =>
      if c = dq then shTok rest ShState.normal cur toks
      else if c = bsl then shTok rest ShState.doubleEsc cur toks
      else shTok rest ShState.double (some (curOf cur ++ [c])) toks
    | ShState.doubleEsc =>
      if isDqEscapable c then shTok rest ShState.double (some (curOf cur ++ [c])) toks
      else shTok rest ShState.double (some (curOf cur ++ [bsl, c])) toks

/-- Tokenize a string the way a POSIX shell splits a command line. -/
def shellTokens (s : String) : Option (List String) :=
  (shTok s.data ShState.normal none []).map (List.map String.mk)

/-! ## URL model

`parseSshUrl` in the source calls the JavaScript `new URL(...)` constructor.
The model below implements the WHATWG URL parser restricted to what that
constructor does on non-special schemes such as `ssh:`: input trimming,
scheme validation and lowercasing, authority splitting at the last `@`,
opaque-host validation, userinfo percent-encoding and port validation
(digits, at most 65535).  Special schemes (`http:` etc.) are approximated:
they parse the same way except that an empty host fails; either way the
caller rejects them for having the wrong scheme.  Bracketed IPv6 hosts are
modelled as parse failures. -/

/-- ASCII uppercase letter. -/
def isAsciiUpper (c : Char) : Bool := 'A' ≤ c && c ≤ 'Z'

/-- ASCII lowercase letter. -/
def isAsciiLower (c : Char) : Bool := 'a' ≤ c && c ≤ 'z'

/-- ASCII letter. -/
def isAsciiAlpha (c : Char) : Bool := isAsciiUpper c || isAsciiLower c

/-- ASCII digit. -/
def isAsciiDigit (c : Char) : Bool := '0' ≤ c && c ≤ '9'

/-- Characters allowed after the first character of a URL scheme. -/
def isSchemeChar (c : Char) : Bool :=
  isAsciiAlpha c || isAsciiDigit c || c = '+' || c = '-' || c = '.'

/-- C0 control or space, stripped from the ends of URL input. -/
def isC0OrSpace (c : Char) : Bool := c.toNat ≤ 0x20

/-- WHATWG URL input preprocessing: strip leading and trailing C0
controls/spaces, then remove every tab and newline. -/
def urlPreprocess (s : String) : List Char :=
  (((s.data.dropWhile isC0OrSpace).reverse.dropWhile isC0OrSpace).reverse).filter
    (fun c => !(c.toNat = 9 || c.toNat = 10 || c.toNat = 13))

/-- Uppercase hexadecimal digit for a value below 16. -/
def hexDigitChar (n : Nat) : Char :=
  if n < 10 then Char.ofNat (48 + n) else Char.ofNat (55 + n)

/-- UTF-8 bytes of a code point. -/
def utf8Bytes (n : Nat) : List Nat :=
  if n < 0x80 then [n]
  else if n < 0x800 then [0xC0 + n / 64, 0x80 + n % 64]
  else if n < 0x10000 then [0xE0 + n / 4096, 0x80 + n / 64 % 64, 0x80 + n % 64]
  else [0xF0 + n / 262144, 0x80 + n / 4096 % 64, 0x80 + n / 64 % 64, 0x80 + n % 64]

/-- Percent-encode one character as its UTF-8 bytes. -/
def pctEncodeChar (c : Char) : List Char :=
  (utf8Bytes c.toNat).foldr
    (fun b acc => '%' :: hexDigitChar (b / 16) :: hexDigitChar (b % 16) :: acc) []

/-- The WHATWG userinfo percent-encode set. -/
def inUserinfoEncodeSet (c : Char) : Bool :=
  c.toNat ≤ 0x1F || 0x7F ≤ c.toNat || c = ' ' || c = dq || c = '#' || c = '<' ||
  c = '>' || c = '?' || c = bq || c = Char.ofNat 0x7B || c = Char.ofNat 0x7D ||
  c = '/' || c = ':' || c = ';' || c = '=' || c = '@' || c = '[' || c = bsl ||
  c = ']' || c = Char.ofNat 0x5E || c = Char.ofNat 0x7C

/-- The WHATWG C0-control percent-encode set (used for opaque hosts). -/
def inC0EncodeSet (c : Char) : Bool := c.toNat ≤ 0x1F || 0x7E < c.toNat

/-- Percent-encode the characters selected by `f`. -/
def pctEncodeWith (f : Char → Bool) (cs : List Char) : List Char :=
  cs.foldr (fun c acc => (if f c then pctEncodeChar c else [c]) ++ acc) []

/-- Forbidden host code points for an opaque host (tab/newline are already
removed by preprocessing). -/
def isForbiddenHostChar (c : Char) : Bool :=
  c.toNat = 0 || c = ' ' || c = '#' || c = '/' || c = ':' || c = '<' || c = '>' ||
  c = '?' || c = '@' || c = '[' || c = bsl || c = ']' || c = Char.ofNat 0x5E ||
  c = Char.ofNat 0x7C

/-- The relevant fields of a parsed WHATWG URL: lowercased scheme without the
colon, percent-encoded username, serialized hostname ("" when absent), and
the port number when present. -/
structure URLRec where
  scheme : String
  username : String
  hostname : String
  port : Option Nat
  deriving DecidableEq, Repr

/-- Digits to a number (the port accumulator). -/
def digitsToNat (cs : List Char) : Nat :=
  cs.foldl (fun a c => a * 10 + (c.toNat - 48)) 0

/-- Port parser: `none` is a URL parse failure, `some none` an absent port,
`some (some n)` a present port `n ≤ 65535`. -/
def parsePort (cs : List Char) : Option (Option Nat) :=
  if cs.isEmpty then some none
  else if cs.all isAsciiDigit then
    (if digitsToNat cs ≤ 65535 then some (some (digitsToNat cs)) else none)
  else none

/-- Schemes the WHATWG parser treats specially. -/
def isSpecialScheme (s : String) : Bool :=
  s = "http" || s = "https" || s = "ws" || s = "wss" || s = "ftp" || s = "file"

/-- Parse the authority part (after `scheme://`). -/
def parseAuthority (scheme : String) (r : List Char) : Option URLRec :=
  let auth := r.takeWhile (fun c => !(c = '/' || c = '?' || c = '#'))
  let revSpan := auth.reverse.span (fun c => c != '@')
  let hostPort := revSpan.1.reverse
  let hasAt := !revSpan.2.isEmpty
  let userinfo := (revSpan.2.drop 1).reverse
  if hasAt && hostPort.isEmpty then none
  else
    let usernameRaw := userinfo.takeWhile (fun c => c != ':')
    let hostPair := hostPort.span (fun c => c != ':')
    if hostPair.1.any (fun c => isForbiddenHostChar c || c = '[' || c = ']') then none
    else
      match parsePort (hostPair.2.drop 1) with
      | none => none
      | some port =>
        some { scheme := scheme,
               username := ⟨pctEncodeWith inUserinfoEncodeSet usernameRaw⟩,
               hostname := ⟨pctEncodeWith inC0EncodeSet hostPair.1⟩,
               port := port }

/-- The `new URL(input)` constructor (no base): `none` models the thrown
`TypeError` on invalid URLs. -/
def parseURL (input : String) : Option URLRec :=
  let l := urlPreprocess input
  let sspan := l.span (fun c => c != ':')
  match sspan.2 with
  | [] => none
  | _ :: rest =>
    if sspan.1.isEmpty then none
    else if !(isAsciiAlpha (sspan.1.headD 'a') && sspan.1.all isSchemeChar) then none
    else
      let scheme : String := ⟨sspan.1.map Char.toLower⟩
      let result := match rest with
        | '/' :: '/' :: r2 => parseAuthority scheme r2
        | _ => some { scheme := scheme, username := "", hostname := "", port := none }
      match result with
      | some u => if isSpecialScheme u.scheme && u.hostname = "" then none else some u
      | none => none

/-! ## decodeURIComponent -/

/-- Hexadecimal digit value. -/
def hexVal (c : Char) : Option Nat :=
  if isAsciiDigit c then some (c.toNat - 48)
  else if 'A' ≤ c && c ≤ 'F' then some (c.toNat - 55)
  else if 'a' ≤ c && c ≤ 'f' then some (c.toNat - 87)
  else none

/-- A UTF-8 continuation byte given by two hex digits, constrained to
`[lo, hi]`. -/
def contByte (h1 h2 : Char) (lo hi : Nat) : Option Nat :=
  match hexVal h1, hexVal h2 with
  | some a, some b =>
    let v := a * 16 + b
    if lo ≤ v && v ≤ hi then some v else none
  | _, _ => none

/-- ECMAScript `Decode` for `decodeURIComponent`: percent-escapes must form
valid (shortest-form, non-surrogate) UTF-8; `none` models the thrown
`URIError`. -/
def decodeAux : List Char → Option (List Char)
  | [] => some []
  | '%' :: h1 :: h2 :: t =>
    (match hexVal h1, hexVal h2 with
     | some a, some b =>
       let b1 := a * 16 + b
       if b1 < 0x80 then (decodeAux t).map (fun l => Char.ofNat b1 :: l)
       else if b1 < 0xC2 then none
       else if b1 ≤ 0xDF then
         match t with
         | '%' :: h3 :: h4 :: t2 =>
           (match contByte h3 h4 0x80 0xBF with
            | some b2 =>
              (decodeAux t2).map (fun l => Char.ofNat ((b1 - 0xC0) * 64 + (b2 - 0x80)) :: l)
            | none => none)
         | _ => none
       else if b1 ≤ 0xEF then
         match t with
         | '%' :: h3 :: h4 :: '%' :: h5 :: h6 :: t2 =>
           (match contByte h3 h4 (if b1 = 0xE0 then 0xA0 else 0x80)
              (if b1 = 0xED then 0x9F else 0xBF), contByte h5 h6 0x80 0xBF with
            | some b2, some b3 =>
              (decodeAux t2).map
                (fun l => Char.ofNat ((b1 - 0xE0) * 4096 + (b2 - 0x80) * 64 + (b3 - 0x80)) :: l)
            | _, _ => none)
         | _ => none
       else if b1 ≤ 0xF4 then
         match t with
         | '%' :: h3 :: h4 :: '%' :: h5 :: h6 :: '%' :: h7 :: h8 :: t2 =>
           (match contByte h3 h4 (if b1 = 0xF0 then 0x90 else 0x80)
              (if b1 = 0xF4 then 0x8F else 0xBF),
              contByte h5 h6 0x80 0xBF, contByte h7 h8 0x80 0xBF with
            | some b2, some b3, some b4 =>
              (decodeAux t2).map
                (fun l => Char.ofNat
                  ((b1 - 0xF0) * 262144 + (b2 - 0x80) * 4096 + (b3 - 0x80) * 64 + (b4 - 0x80)) :: l)
            | _, _, _ => none)
         | _ => none
       else none
     | _, _ => none)
  | '%' :: _ => none
  | c :: t => (decodeAux t).map (fun l => c :: l)

/-- `decodeURIComponent`, with `none` for the thrown `URIError`. -/
def decodeURIComponentOpt (s : String) : Option String :=
  (decodeAux s.data).map String.mk

/-! ## parseSshUrl -/

/-- The result of `parseSshUrl`: `userHost` is `user@host` or `host`, and the
port is absent or a number (`url.port` is a digit string in JavaScript; it is
rendered back to decimal where it is placed in an argument list). -/
structure ParsedTarget where
  userHost : String
  port : Option Nat
  deriving DecidableEq, Repr

/-- How a `parseSshUrl` call can throw.  The first three are the errors the
function itself constructs; `uriError` is the `URIError` escaping from
`decodeURIComponent` on a username with a malformed percent-escape. -/
inductive SshUrlError where
  | invalidUrl
  | wrongScheme
  | noHostname
  | uriError
  deriving DecidableEq, Repr

/-- The message of each error thrown by `parseSshUrl` (the `uriError` message
is produced by the JavaScript runtime). -/
def sshErrorMsg : SshUrlError → String
  | SshUrlError.invalidUrl => "Invalid SSH URL."
  | SshUrlError.wrongScheme => "SSH URL must start with ssh://"
  | SshUrlError.noHostname => "SSH URL requires a hostname."
  | SshUrlError.uriError => "URI malformed"

instance {ε α : Type} [DecidableEq ε] [DecidableEq α] : DecidableEq (Except ε α)
  | Except.ok a, Except.ok b =>
    if h : a = b then isTrue (by rw [h])
    else isFalse (by intro he; cases he; exact h rfl)
  | Except.ok _, Except.error _ => isFalse (by intro h; cases h)
  | Except.error _, Except.ok _ => isFalse (by intro h; cases h)
  | Except.error e, Except.error f =>
    if h : e = f then isTrue (by rw [h])
    else isFalse (by intro he; cases he; exact h rfl)

/-- `parseSshUrl` from the source: parse with `new URL`, require the `ssh:`
scheme and a hostname, and build `userHost`/`port` (`url.port || null`). -/
def parseSshUrl (sshUrl : String) : Except SshUrlError ParsedTarget :=
  match parseURL sshUrl with
  | none => Except.error SshUrlError.invalidUrl
  | some url =>
    if url.scheme ≠ "ssh" then Except.error SshUrlError.wrongScheme
    else if url.hostname = "" then Except.error SshUrlError.noHostname
    else if url.username = "" then Except.ok ⟨url.hostname, url.port⟩
    else
      match decodeURIComponentOpt url.username with
      | none => Except.error SshUrlError.uriError
      | some u => Except.ok ⟨u ++ "@" ++ url.hostname, url.port⟩

/-! ## Execution model

`execFile` and the surrounding promises are modelled by a function `exec`
from a spawned command to the triple the callback observes, and every
strategy returns the list of commands it spawned. -/

/-- A spawned subprocess: program and argument list, as passed to
`execFile`. -/
structure SpawnCmd where
  prog : String
  args : List String
  deriving DecidableEq, Repr

/-- What an `execFile` callback observes: `err` is `some message` when the
error argument is non-null, plus the captured stdout and stderr. -/
structure ExecOutcome where
  err : Option String
  stdout : String
  stderr : String
  deriving DecidableEq, Repr

/-- Modelled from the spec: the `UP` status constant imported from
`src/util`, which is not among the given sources.  Its numeric value is
irrelevant to every claim. -/
def UP : Nat := 1

/-- The caller-owned heartbeat object (the two fields the monitor
assigns). -/
structure Heartbeat where
  status : Nat
  msg : String
  deriving DecidableEq, Repr

/-- The observable result of one strategy run: the settled promise
(`ok ()` = resolved, `error m` = rejected or thrown with message `m`), the
heartbeat after the run, and the subprocesses spawned during it. -/
structure CheckRun where
  result : Except String Unit
  hb : Heartbeat
  spawned : List SpawnCmd
  deriving DecidableEq, Repr

/-- The ssh argument list built by `execSshCommand`: the fixed batch-mode
and connect-timeout options, then `-p <port>` when the parsed target has a
port, then the user-host and the single space-joined escaped remote
command. -/
def buildSshArgs (parsed : ParsedTarget) (remoteArgs : List String) : List String :=
  let sshArgs := ["-o", "BatchMode=yes", "-o", "ConnectTimeout=5"]
  let sshArgs := match parsed.port with
    | some p => sshArgs ++ ["-p", toString p]
    | none => sshArgs
  sshArgs ++ [parsed.userHost, String.intercalate " " (remoteArgs.map escapeSshArg)]

/-- `execSshCommand` from the source: parse the target (a thrown parse error
propagates to the caller), spawn `ssh` with the built argument list, and on
error reject with the trimmed `stderr || stdout || error.message` (or the
generic fallback when that is empty); on success resolve with stdout. -/
def execSshCommand (exec : SpawnCmd → ExecOutcome) (sshUrl : String)
    (remoteArgs : List String) : Except String String × List SpawnCmd :=
  match parseSshUrl sshUrl with
  | Except.error e => (Except.error (sshErrorMsg e), [])
  | Except.ok parsed =>
    let cmd : SpawnCmd := ⟨"ssh", buildSshArgs parsed remoteArgs⟩
    let r := exec cmd
    match r.err with
    | some m =>
      let output := trimOutput (jsOr r.stderr (jsOr r.stdout m))
      (Except.error (if output = "" then "Failed to execute command over SSH" else output),
        [cmd])
    | none => (Except.ok r.stdout, [cmd])

/-! ## The four platform check strategies -/

/-- A character of the Linux allow-list `^[a-zA-Z0-9._\-@]+$`. -/
def isLinuxNameChar (c : Char) : Bool :=
  isAsciiAlpha c || isAsciiDigit c || c = '.' || c = '_' || c = '-' || c = '@'

/-- The Linux service-name validation (`!serviceName ||` and the regular
expression collapse to: non-empty and all characters allowed). -/
def validLinuxName (s : String) : Bool :=
  !s.data.isEmpty && s.data.all isLinuxNameChar

/-- A character of the Windows allow-list `^[A-Za-z0-9._-]+$`. -/
def isWindowsNameChar (c : Char) : Bool :=
  isAsciiAlpha c || isAsciiDigit c || c = '.' || c = '_' || c = '-'

/-- The Windows service-name validation. -/
def validWindowsName (s : String) : Bool :=
  !s.data.isEmpty && s.data.all isWindowsNameChar

/-- The Linux invalid-service-name message. -/
def linuxInvalidMsg : String :=
  "Invalid service name. Please use the internal Service Name (no spaces)."

/-- The Windows invalid-service-name message. -/
def windowsInvalidMsg : String :=
  "Invalid service name. Only alphanumeric characters and '.', '_', '-' are allowed."

/-- `Service '<name>' is running.` -/
def runningMsg (name : String) : String := "Service '" ++ name ++ "' is running."

/-- `Service '<name>' is <status>.` -/
def svcIsMsg (name status : String) : String :=
  "Service '" ++ name ++ "' is " ++ status ++ "."

/-- The PowerShell status query, with embedded single quotes doubled
(`replaceAll("'", "''")`). -/
def psQuote (s : String) : String :=
  ⟨s.data.foldr (fun c acc => if c = sq then sq :: sq :: acc else c :: acc) []⟩

/-- `(Get-Service -Name '<name>').Status` -/
def psCommand (serviceName : String) : String :=
  "(Get-Service -Name '" ++ psQuote serviceName ++ "').Status"

/-- `checkLinux` from the source.  Its inline output handling is exactly
`trimOutput` applied to `stderr || stdout || ""`. -/
def checkLinux (exec : SpawnCmd → ExecOutcome) (serviceName : String)
    (heartbeat : Heartbeat) : CheckRun :=
  if validLinuxName serviceName then
    let cmd : SpawnCmd := ⟨"systemctl", ["is-active", serviceName]⟩
    let r := exec cmd
    let output := trimOutput (jsOr r.stderr r.stdout)
    match r.err with
    | some _ =>
      ⟨Except.error (if output = "" then svcIsMsg serviceName "not running" else output),
        heartbeat, [cmd]⟩
    | none => ⟨Except.ok (), ⟨UP, runningMsg serviceName⟩, [cmd]⟩
  else ⟨Except.error linuxInvalidMsg, heartbeat, []⟩

/-- `checkWindows` from the source: reject with the not running/found
message when the callback reports an error or stderr is non-empty, compare
the trimmed output to `"Running"` otherwise. -/
def checkWindows (exec : SpawnCmd → ExecOutcome) (serviceName : String)
    (heartbeat : Heartbeat) : CheckRun :=
  if validWindowsName serviceName then
    let cmd : SpawnCmd := ⟨"powershell",
      ["-NoProfile", "-NonInteractive", "-Command", psCommand serviceName]⟩
    let r := exec cmd
    let output := trimOutput (jsOr r.stderr r.stdout)
    if r.err.isSome || r.stderr ≠ "" then
      ⟨Except.error (svcIsMsg serviceName "not running/found"), heartbeat, [cmd]⟩
    else if output = "Running" then
      ⟨Except.ok (), ⟨UP, runningMsg serviceName⟩, [cmd]⟩
    else ⟨Except.error (svcIsMsg serviceName output), heartbeat, [cmd]⟩
  else ⟨Except.error windowsInvalidMsg, heartbeat, []⟩

/-- `checkLinuxViaSSH` from the source: validate, run
`systemctl is-active <name>` over ssh, wrap a failure's trimmed message in
`Service '<name>' is <message>.` (with `not running` when empty), and
require the trimmed output `active` for `UP`. -/
def checkLinuxViaSSH (exec : SpawnCmd → ExecOutcome) (serviceName sshUrl : String)
    (heartbeat : Heartbeat) : CheckRun :=
  if validLinuxName serviceName then
    let res := execSshCommand exec sshUrl ["systemctl", "is-active", serviceName]
    match res.1 with
    | Except.error e =>
      let message := trimOutput e
      ⟨Except.error (svcIsMsg serviceName (if message = "" then "not running" else message)),
        heartbeat, res.2⟩
    | Except.ok output =>
      let status := trimOutput output
      if status ≠ "active" then
        ⟨Except.error (svcIsMsg serviceName (if status = "" then "not running" else status)),
          heartbeat, res.2⟩
      else ⟨Except.ok (), ⟨UP, runningMsg serviceName⟩, res.2⟩
  else ⟨Except.error linuxInvalidMsg, heartbeat, []⟩

/-- `checkWindowsViaSSH` from the source: validate, run the PowerShell
status query over ssh, report every transport failure as not running/found,
and compare the trimmed output to `"Running"`. -/
def checkWindowsViaSSH (exec : SpawnCmd → ExecOutcome) (serviceName sshUrl : String)
    (heartbeat : Heartbeat) : CheckRun :=
  if validWindowsName serviceName then
    let res := execSshCommand exec sshUrl
      ["powershell", "-NoProfile", "-NonInteractive", "-Command", psCommand serviceName]
    match res.1 with
    | Except.error _ =>
      ⟨Except.error (svcIsMsg serviceName "not running/found"), heartbeat, res.2⟩
    | Except.ok output =>
      let status := trimOutput output
      if status = "Running" then
        ⟨Except.ok (), ⟨UP, runningMsg serviceName⟩, res.2⟩
      else
        ⟨Except.error (svcIsMsg serviceName (if status = "" then "not running" else status)),
          heartbeat, res.2⟩
  else ⟨Except.error windowsInvalidMsg, heartbeat, []⟩

/-! ## Derived command constants -/

/-- The command spawned by the Linux strategies. -/
def linuxCmd (name : String) : SpawnCmd := ⟨"systemctl", ["is-active", name]⟩

/-- The command spawned by the local Windows strategy. -/
def winCmd (name : String) : SpawnCmd :=
  ⟨"powershell", ["-NoProfile", "-NonInteractive", "-Command", psCommand name]⟩

/-- The remote command tokens of the Windows ssh strategy. -/
def winSshArgs (name : String) : List String :=
  ["powershell", "-NoProfile", "-NonInteractive", "-Command", psCommand name]

/-- A 210-character diagnostic. -/
def longDiag : String := ⟨List.replicate 210 'a'⟩

/-- Unfolding: tokenizer step in the single-quote state. -/
theorem shTok_single_cons (c : Char) (rest : List Char) (cur : List Char)
    (toks : List (List Char)) :
    shTok (c :: rest) ShState.single (some cur) toks =
      if c = sq then shTok rest ShState.normal (some cur) toks
      else shTok rest ShState.single (some (cur ++ [c])) toks := rfl

/-- Processing the escaped body inside single quotes appends exactly the
original characters to the word in progress and returns to the single-quote
state. -/
theorem shTok_escapeBody_single (cs : List Char) : ∀ (tail acc : List Char)
    (toks : List (List Char)),
    shTok (escapeBody cs ++ tail) ShState.single (some acc) toks =
      shTok tail ShState.single (some (acc ++ cs)) toks := by
  induction cs with
  | nil => intro tail acc toks; simp [escapeBody]
  | cons c cs ih =>
    intro tail acc toks
    by_cases hc : c = sq
    · subst hc
      have h1 : escapeBody (sq :: cs) ++ tail
          = sq :: dq :: sq :: dq :: sq :: (escapeBody cs ++ tail) := by
        simp [escapeBody]
      have h2 : shTok (sq :: dq :: sq :: dq :: sq :: (escapeBody cs ++ tail))
            ShState.single (some acc) toks
          = shTok (escapeBody cs ++ tail) ShState.single (some (acc ++ [sq])) toks := by
        rfl
      rw [h1, h2, ih]
      simp
    · have h1 : escapeBody (c :: cs) ++ tail = c :: (escapeBody cs ++ tail) := by
        simp [escapeBody, hc]
      rw [h1, shTok_single_cons, if_neg hc, ih]
      simp

/-- Claim C2: the shell-argument escaper is total, maps the empty string to
the two-character token `''`, and round-trips through POSIX shell
tokenization: for every string, tokenizing the escaped output yields exactly
one token equal to the original string. -/
theorem c2_escaper_roundtrip :
    escapeSshArg "" = "''" ∧
    ∀ s : String, shellTokens (escapeSshArg s) = some [s] := by
  refine ⟨rfl, ?_⟩
  intro s
  obtain ⟨l⟩ := s
  cases l with
  | nil => rfl
  | cons c cs =>
    have hne : (String.mk (c :: cs)).data ≠ [] := by simp
    unfold shellTokens escapeSshArg
    rw [if_neg hne]
    show (shTok (sq :: (escapeBody (c :: cs) ++ [sq])) ShState.normal none []).map
        (List.map String.mk) = some [⟨c :: cs⟩]
    have h0 : shTok (sq :: (escapeBody (c :: cs) ++ [sq])) ShState.normal none []
        = shTok (escapeBody (c :: cs) ++ [sq]) ShState.single (some []) [] := by
      rfl
    rw [h0, shTok_escapeBody_single, shTok_single_cons, if_pos rfl]
    rfl

/-! ## Shared helper lemmas -/

/-- The length of appending three dots. -/
theorem length_append_dots (a : String) : (a ++ "...").length = a.length + 3 := by
  rw [String.length_append]
  rfl

/-- `trimOutput` never returns more than 203 characters. -/
theorem trimOutput_length_le (s : String) : (trimOutput s).length ≤ 203 := by
  simp only [trimOutput, SSH_OUTPUT_MAX_CHARS]
  split
  case isTrue h =>
    have h1 : (takeChars 200 (jsTrim s)).length = 200 := by
      show ((jsTrim s).data.take 200).length = 200
      rw [List.length_take]
      have h2 : 200 < (jsTrim s).data.length := h
      omega
    rw [length_append_dots, h1]
  case isFalse h => omega

/-- Length of `Service '<name>' is <status>.` -/
theorem svcIsMsg_length (name status : String) :
    (svcIsMsg name status).length = name.length + status.length + 15 := by
  simp only [svcIsMsg, String.length_append]
  have h1 : ("Service '" : String).length = 9 := rfl
  have h2 : ("' is " : String).length = 5 := rfl
  have h3 : ("." : String).length = 1 := rfl
  omega

/-- Length of `Service '<name>' is running.` -/
theorem runningMsg_length (name : String) :
    (runningMsg name).length = name.length + 22 := by
  simp only [runningMsg, String.length_append]
  have h1 : ("Service '" : String).length = 9 := rfl
  have h2 : ("' is running." : String).length = 13 := rfl
  omega

/-! ## Claim C1 -/

/-- Claim C1: a service name that fails the applicable platform allow-list
makes each of the four strategies fail with the invalid-service-name error
of that platform, and no subprocess is spawned. -/
theorem c1_invalid_name_no_spawn (exec : SpawnCmd → ExecOutcome)
    (name url : String) (hb : Heartbeat) :
    (validLinuxName name = false →
      checkLinux exec name hb = ⟨Except.error linuxInvalidMsg, hb, []⟩ ∧
      checkLinuxViaSSH exec name url hb = ⟨Except.error linuxInvalidMsg, hb, []⟩) ∧
    (validWindowsName name = false →
      checkWindows exec name hb = ⟨Except.error windowsInvalidMsg, hb, []⟩ ∧
      checkWindowsViaSSH exec name url hb = ⟨Except.error windowsInvalidMsg, hb, []⟩) := by
  constructor
  · intro h
    constructor <;> simp [checkLinux, checkLinuxViaSSH, h]
  · intro h
    constructor <;> simp [checkWindows, checkWindowsViaSSH, h]

/-- Witness for C1 at the concrete name `"bad name"` (rejected by both
allow-lists because of the space). -/
theorem c1_witness :
    (validLinuxName "bad name" = false ∧ validWindowsName "bad name" = false) ∧
    checkLinux (fun _ => ⟨none, "", ""⟩) "bad name" ⟨0, ""⟩ =
      ⟨Except.error linuxInvalidMsg, ⟨0, ""⟩, []⟩ ∧
    checkWindowsViaSSH (fun _ => ⟨none, "", ""⟩) "bad name" "ssh://host" ⟨0, ""⟩ =
      ⟨Except.error windowsInvalidMsg, ⟨0, ""⟩, []⟩ := by
  refine ⟨⟨by decide, by decide⟩, ?_, ?_⟩
  · exact ((c1_invalid_name_no_spawn (fun _ => ⟨none, "", ""⟩) "bad name" "ssh://host"
      ⟨0, ""⟩).1 (by decide)).1
  · exact ((c1_invalid_name_no_spawn (fun _ => ⟨none, "", ""⟩) "bad name" "ssh://host"
      ⟨0, ""⟩).2 (by decide)).2

/-! ## Per-strategy case analyses -/

/-- `checkLinux` either succeeds setting the heartbeat to `UP`/running, or
fails leaving the heartbeat unchanged. -/
theorem checkLinux_cases (exec : SpawnCmd → ExecOutcome) (name : String)
    (hb : Heartbeat) :
    ((checkLinux exec name hb).result = Except.ok () ∧
      (checkLinux exec name hb).hb = ⟨UP, runningMsg name⟩) ∨
    ((∃ m, (checkLinux exec name hb).result = Except.error m) ∧
      (checkLinux exec name hb).hb = hb) := by
  simp only [checkLinux]
  split
  · split
    · exact Or.inr ⟨⟨_, rfl⟩, rfl⟩
    · exact Or.inl ⟨rfl, rfl⟩
  · exact Or.inr ⟨⟨_, rfl⟩, rfl⟩

/-- `checkWindows` either succeeds setting the heartbeat to `UP`/running, or
fails leaving the heartbeat unchanged. -/
theorem checkWindows_cases (exec : SpawnCmd → ExecOutcome) (name : String)
    (hb : Heartbeat) :
    ((checkWindows exec name hb).result = Except.ok () ∧
      (checkWindows exec name hb).hb = ⟨UP, runningMsg name⟩) ∨
    ((∃ m, (checkWindows exec name hb).result = Except.error m) ∧
      (checkWindows exec name hb).hb = hb) := by
  simp only [checkWindows]
  split
  · split
    · exact Or.inr ⟨⟨_, rfl⟩, rfl⟩
    · split
      · exact Or.inl ⟨rfl, rfl⟩
      · exact Or.inr ⟨⟨_, rfl⟩, rfl⟩
  · exact Or.inr ⟨⟨_, rfl⟩, rfl⟩

/-- `checkLinuxViaSSH` either succeeds setting the heartbeat to
`UP`/running, or fails leaving the heartbeat unchanged. -/
theorem checkLinuxViaSSH_cases (exec : SpawnCmd → ExecOutcome)
    (name url : String) (hb : Heartbeat) :
    ((checkLinuxViaSSH exec name url hb).result = Except.ok () ∧
      (checkLinuxViaSSH exec name url hb).hb = ⟨UP, runningMsg name⟩) ∨
    ((∃ m, (checkLinuxViaSSH exec name url hb).result = Except.error m) ∧
      (checkLinuxViaSSH exec name url hb).hb = hb) := by
  simp only [checkLinuxViaSSH]
  split
  · split
    · exact Or.inr ⟨⟨_, rfl⟩, rfl⟩
    · split
      · exact Or.inr ⟨⟨_, rfl⟩, rfl⟩
      · exact Or.inl ⟨rfl, rfl⟩
  · exact Or.inr ⟨⟨_, rfl⟩, rfl⟩

/-- `checkWindowsViaSSH` either succeeds setting the heartbeat to
`UP`/running, or fails leaving the heartbeat unchanged. -/
theorem checkWindowsViaSSH_cases (exec : SpawnCmd → ExecOutcome)
    (name url : String) (hb : Heartbeat) :
    ((checkWindowsViaSSH exec name url hb).result = Except.ok () ∧
      (checkWindowsViaSSH exec name url hb).hb = ⟨UP, runningMsg name⟩) ∨
    ((∃ m, (checkWindowsViaSSH exec name url hb).result = Except.error m) ∧
      (checkWindowsViaSSH exec name url hb).hb = hb) := by
  simp only [checkWindowsViaSSH]
  split
  · split
    · exact Or.inr ⟨⟨_, rfl⟩, rfl⟩
    · split
      · exact Or.inl ⟨rfl, rfl⟩
      · exact Or.inr ⟨⟨_, rfl⟩, rfl⟩
  · exact Or.inr ⟨⟨_, rfl⟩, rfl⟩

/-! ## Claim C10 -/

/-- Claim C10: on every failing path of every strategy the heartbeat is
returned unchanged; its fields are assigned only on the success path, which
sets status `UP` and the running message. -/
theorem c10_heartbeat_on_failure (exec : SpawnCmd → ExecOutcome)
    (name url : String) (hb : Heartbeat) :
    ((∀ m, (checkLinux exec name hb).result = Except.error m →
        (checkLinux exec name hb).hb = hb) ∧
      ((checkLinux exec name hb).result = Except.ok () →
        (checkLinux exec name hb).hb = ⟨UP, runningMsg name⟩)) ∧
    ((∀ m, (checkWindows exec name hb).result = Except.error m →
        (checkWindows exec name hb).hb = hb) ∧
      ((checkWindows exec name hb).result = Except.ok () →
        (checkWindows exec name hb).hb = ⟨UP, runningMsg name⟩)) ∧
    ((∀ m, (checkLinuxViaSSH exec name url hb).result = Except.error m →
        (checkLinuxViaSSH exec name url hb).hb = hb) ∧
      ((checkLinuxViaSSH exec name url hb).result = Except.ok () →
        (checkLinuxViaSSH exec name url hb).hb = ⟨UP, runningMsg name⟩)) ∧
    ((∀ m, (checkWindowsViaSSH exec name url hb).result = Except.error m →
        (checkWindowsViaSSH exec name url hb).hb = hb) ∧
      ((checkWindowsViaSSH exec name url hb).result = Except.ok () →
        (checkWindowsViaSSH exec name url hb).hb = ⟨UP, runningMsg name⟩)) := by
  refine ⟨⟨?_, ?_⟩, ⟨?_, ?_⟩, ⟨?_, ?_⟩, ⟨?_, ?_⟩⟩
  · intro m hm
    rcases checkLinux_cases exec name hb with ⟨hok, _⟩ | ⟨_, hhb⟩
    · rw [hok] at hm; nomatch hm
    · exact hhb
  · intro hok
    rcases checkLinux_cases exec name hb with ⟨_, hhb⟩ | ⟨⟨m, hm⟩, _⟩
    · exact hhb
    · rw [hm] at hok; nomatch hok
  · intro m hm
    rcases checkWindows_cases exec name hb with ⟨hok, _⟩ | ⟨_, hhb⟩
    · rw [hok] at hm; nomatch hm
    · exact hhb
  · intro hok
    rcases checkWindows_cases exec name hb with ⟨_, hhb⟩ | ⟨⟨m, hm⟩, _⟩
    · exact hhb
    · rw [hm] at hok; nomatch hok
  · intro m hm
    rcases checkLinuxViaSSH_cases exec name url hb with ⟨hok, _⟩ | ⟨_, hhb⟩
    · rw [hok] at hm; nomatch hm
    · exact hhb
  · intro hok
    rcases checkLinuxViaSSH_cases exec name url hb with ⟨_, hhb⟩ | ⟨⟨m, hm⟩, _⟩
    · exact hhb
    · rw [hm] at hok; nomatch hok
  · intro m hm
    rcases checkWindowsViaSSH_cases exec name url hb with ⟨hok, _⟩ | ⟨_, hhb⟩
    · rw [hok] at hm; nomatch hm
    · exact hhb
  · intro hok
    rcases checkWindowsViaSSH_cases exec name url hb with ⟨_, hhb⟩ | ⟨⟨m, hm⟩, _⟩
    · exact hhb
    · rw [hm] at hok; nomatch hok

/-- Witness for C10: a concrete failing run leaves a concrete heartbeat
unchanged. -/
theorem c10_witness :
    (checkLinux (fun _ => ⟨some "boom", "", ""⟩) "nginx" ⟨7, "old"⟩).result =
      Except.error "Service 'nginx' is not running." ∧
    (checkLinux (fun _ => ⟨some "boom", "", ""⟩) "nginx" ⟨7, "old"⟩).hb = ⟨7, "old"⟩ := by
  refine ⟨by decide, ?_⟩
  exact (c10_heartbeat_on_failure (fun _ => ⟨some "boom", "", ""⟩) "nginx" "ssh://host"
    ⟨7, "old"⟩).1.1 "Service 'nginx' is not running." (by decide)

/-! ## Claim C5 -/

/-- Claim C5: for every parsed target and non-empty remote command, the ssh
argument list is exactly the batch-mode flag, the connect-timeout option, a
`-p <port>` pair exactly when the target carries a port, the user-host, and
a single trailing argument space-joining the escaped command tokens — and
nothing else; `execSshCommand` spawns exactly one `ssh` process with that
list. -/
theorem c5_ssh_argument_list (exec : SpawnCmd → ExecOutcome) (url : String)
    (pt : ParsedTarget) (remoteArgs : List String)
    (hparse : parseSshUrl url = Except.ok pt) (_hne : remoteArgs ≠ []) :
    (∃ portPart,
      buildSshArgs pt remoteArgs =
        ["-o", "BatchMode=yes", "-o", "ConnectTimeout=5"] ++ portPart ++
          [pt.userHost, String.intercalate " " (remoteArgs.map escapeSshArg)] ∧
      ((∃ p, pt.port = some p ∧ portPart = ["-p", toString p]) ∨
        (pt.port = none ∧ portPart = []))) ∧
    (execSshCommand exec url remoteArgs).2 =
      [⟨"ssh", buildSshArgs pt remoteArgs⟩] := by
  constructor
  · cases hp : pt.port with
    | some p =>
      exact ⟨["-p", toString p], by simp [buildSshArgs, hp], Or.inl ⟨p, rfl, rfl⟩⟩
    | none => exact ⟨[], by simp [buildSshArgs, hp], Or.inr ⟨rfl, rfl⟩⟩
  · simp only [execSshCommand, hparse]
    cases (exec ⟨"ssh", buildSshArgs pt remoteArgs⟩).err <;> rfl

/-- Witness for C5 at `ssh://user@host:2222` with the Linux status query. -/
theorem c5_witness :
    (parseSshUrl "ssh://user@host:2222" = Except.ok ⟨"user@host", some 2222⟩ ∧
      (["systemctl", "is-active", "nginx"] : List String) ≠ []) ∧
    buildSshArgs ⟨"user@host", some 2222⟩ ["systemctl", "is-active", "nginx"] =
      ["-o", "BatchMode=yes", "-o", "ConnectTimeout=5", "-p", "2222", "user@host",
        "'systemctl' 'is-active' 'nginx'"] ∧
    (execSshCommand (fun _ => ⟨none, "", ""⟩) "ssh://user@host:2222"
        ["systemctl", "is-active", "nginx"]).2 =
      [⟨"ssh", buildSshArgs ⟨"user@host", some 2222⟩ ["systemctl", "is-active", "nginx"]⟩] := by
  refine ⟨⟨by decide, by decide⟩, by decide, ?_⟩
  exact (c5_ssh_argument_list (fun _ => ⟨none, "", ""⟩) "ssh://user@host:2222"
    ⟨"user@host", some 2222⟩ ["systemctl", "is-active", "nginx"]
    (by decide) (by decide)).2

/-! ## Claim C3 -/

/-- Claim C3 (amended): for a valid Linux name, the local strategy maps
executor success to `UP` with the running message and executor failure to
the captured truncated diagnostic when non-empty, else the not-running
message; the remote strategy maps executor success to `UP` only when the
trimmed output is `active`, success with any other output to a failure
`Service '<name>' is <output>.` (`not running` when empty), and executor
failure to `Service '<name>' is <diagnostic>.` with the truncated
diagnostic (`not running` when empty). -/
theorem c3_linux_outcomes (exec : SpawnCmd → ExecOutcome) (name url : String)
    (hb : Heartbeat) (hv : validLinuxName name = true) :
    ((exec (linuxCmd name)).err = none →
      checkLinux exec name hb =
        ⟨Except.ok (), ⟨UP, runningMsg name⟩, [linuxCmd name]⟩) ∧
    (∀ e, (exec (linuxCmd name)).err = some e →
      checkLinux exec name hb =
        ⟨Except.error
            (if trimOutput (jsOr (exec (linuxCmd name)).stderr (exec (linuxCmd name)).stdout) = ""
             then svcIsMsg name "not running"
             else trimOutput (jsOr (exec (linuxCmd name)).stderr (exec (linuxCmd name)).stdout)),
          hb, [linuxCmd name]⟩) ∧
    (∀ m, (execSshCommand exec url ["systemctl", "is-active", name]).1 = Except.error m →
      checkLinuxViaSSH exec name url hb =
        ⟨Except.error
            (svcIsMsg name (if trimOutput m = "" then "not running" else trimOutput m)),
          hb, (execSshCommand exec url ["systemctl", "is-active", name]).2⟩) ∧
    (∀ out, (execSshCommand exec url ["systemctl", "is-active", name]).1 = Except.ok out →
      (trimOutput out = "active" →
        checkLinuxViaSSH exec name url hb =
          ⟨Except.ok (), ⟨UP, runningMsg name⟩,
            (execSshCommand exec url ["systemctl", "is-active", name]).2⟩) ∧
      (trimOutput out ≠ "active" →
        checkLinuxViaSSH exec name url hb =
          ⟨Except.error
              (svcIsMsg name (if trimOutput out = "" then "not running" else trimOutput out)),
            hb, (execSshCommand exec url ["systemctl", "is-active", name]).2⟩)) := by
  refine ⟨?_, ?_, ?_, ?_⟩
  · intro he
    simp only [linuxCmd] at he
    simp [checkLinux, hv, linuxCmd, he]
  · intro e he
    simp only [linuxCmd] at he
    simp [checkLinux, hv, linuxCmd, he]
  · intro m hm
    simp [checkLinuxViaSSH, hv, hm]
  · intro out hout
    constructor
    · intro hact
      simp [checkLinuxViaSSH, hv, hout, hact]
    · intro hact
      simp [checkLinuxViaSSH, hv, hout, hact]

/-- Claim C3 counterexample: with a valid name and an executor success whose
output is `inactive`, the remote Linux strategy fails instead of reporting
`UP`, so executor success does not imply `UP` for the remote strategy. -/
theorem c3_counterexample :
    validLinuxName "nginx" = true ∧
    (execSshCommand (fun _ => ⟨none, "inactive", ""⟩) "ssh://host"
        ["systemctl", "is-active", "nginx"]).1 = Except.ok "inactive" ∧
    (checkLinuxViaSSH (fun _ => ⟨none, "inactive", ""⟩) "nginx" "ssh://host"
        ⟨0, ""⟩).result = Except.error "Service 'nginx' is inactive." := by
  exact ⟨by decide, by decide, by decide⟩

/-- Witness for C3: the spec's end-to-end example, a local check returning
exit code zero for `nginx`. -/
theorem c3_witness :
    validLinuxName "nginx" = true ∧
    checkLinux (fun _ => ⟨none, "active\n", ""⟩) "nginx" ⟨0, ""⟩ =
      ⟨Except.ok (), ⟨UP, "Service 'nginx' is running."⟩,
        [⟨"systemctl", ["is-active", "nginx"]⟩]⟩ := by
  refine ⟨by decide, ?_⟩
  exact (c3_linux_outcomes (fun _ => ⟨none, "active\n", ""⟩) "nginx" "ssh://host"
    ⟨0, ""⟩ (by decide)).1 rfl

/-! ## Claim C4 -/

/-- Claim C4 (amended): the Windows strategies compare the trimmed output to
`Running` only after execution succeeded and, locally, only when stderr is
empty; equality gives `UP` with the running message; any other output gives
`Service '<name>' is <output>.`, where the remote strategy substitutes
`not running` for an empty output; an execution error — or, locally, any
non-empty stderr — gives the `not running/found` wording. -/
theorem c4_windows_outcomes (exec : SpawnCmd → ExecOutcome) (name url : String)
    (hb : Heartbeat) (hv : validWindowsName name = true) :
    ((exec (winCmd name)).err.isSome = true ∨ (exec (winCmd name)).stderr ≠ "" →
      checkWindows exec name hb =
        ⟨Except.error (svcIsMsg name "not running/found"), hb, [winCmd name]⟩) ∧
    ((exec (winCmd name)).err = none → (exec (winCmd name)).stderr = "" →
      (trimOutput (exec (winCmd name)).stdout = "Running" →
        checkWindows exec name hb =
          ⟨Except.ok (), ⟨UP, runningMsg name⟩, [winCmd name]⟩) ∧
      (trimOutput (exec (winCmd name)).stdout ≠ "Running" →
        checkWindows exec name hb =
          ⟨Except.error (svcIsMsg name (trimOutput (exec (winCmd name)).stdout)),
            hb, [winCmd name]⟩)) ∧
    (∀ m, (execSshCommand exec url (winSshArgs name)).1 = Except.error m →
      checkWindowsViaSSH exec name url hb =
        ⟨Except.error (svcIsMsg name "not running/found"), hb,
          (execSshCommand exec url (winSshArgs name)).2⟩) ∧
    (∀ out, (execSshCommand exec url (winSshArgs name)).1 = Except.ok out →
      (trimOutput out = "Running" →
        checkWindowsViaSSH exec name url hb =
          ⟨Except.ok (), ⟨UP, runningMsg name⟩,
            (execSshCommand exec url (winSshArgs name)).2⟩) ∧
      (trimOutput out ≠ "Running" →
        checkWindowsViaSSH exec name url hb =
          ⟨Except.error
              (svcIsMsg name (if trimOutput out = "" then "not running" else trimOutput out)),
            hb, (execSshCommand exec url (winSshArgs name)).2⟩)) := by
  refine ⟨?_, ?_, ?_, ?_⟩
  · intro herr
    rcases herr with herr | herr <;>
      (simp only [winCmd] at herr; simp [checkWindows, hv, winCmd, herr])
  · intro he hs
    simp only [winCmd] at he hs
    constructor
    · intro hrun
      simp only [winCmd] at hrun
      simp [checkWindows, hv, winCmd, he, hs, jsOr, hrun]
    · intro hrun
      simp only [winCmd] at hrun
      simp [checkWindows, hv, winCmd, he, hs, jsOr, hrun]
  · intro m hm
    simp only [winSshArgs] at hm
    simp [checkWindowsViaSSH, hv, winSshArgs, hm]
  · intro out hout
    simp only [winSshArgs] at hout
    constructor
    · intro hrun
      simp [checkWindowsViaSSH, hv, winSshArgs, hout, hrun]
    · intro hrun
      simp [checkWindowsViaSSH, hv, winSshArgs, hout, hrun]

/-- Claim C4 counterexample: locally, with no execution error, the captured
output is `stderr || stdout`; when stderr alone trims to `Running` the claim
requires `UP`, but the strategy fails with the not running/found message. -/
theorem c4_counterexample :
    validWindowsName "nginx" = true ∧
    trimOutput (jsOr "Running" "whatever") = "Running" ∧
    (checkWindows (fun _ => ⟨none, "whatever", "Running"⟩) "nginx" ⟨0, ""⟩).result =
      Except.error "Service 'nginx' is not running/found." := by
  exact ⟨by decide, by decide, by decide⟩

/-- Witness for C4: the spec's end-to-end example, a local status query
returning `Stopped`. -/
theorem c4_witness :
    validWindowsName "nginx" = true ∧
    checkWindows (fun _ => ⟨none, "Stopped\n", ""⟩) "nginx" ⟨0, ""⟩ =
      ⟨Except.error "Service 'nginx' is Stopped.", ⟨0, ""⟩, [winCmd "nginx"]⟩ := by
  refine ⟨by decide, ?_⟩
  have h := ((c4_windows_outcomes (fun _ => ⟨none, "Stopped\n", ""⟩) "nginx" "ssh://host"
    ⟨0, ""⟩ (by decide)).2.1 rfl rfl).2 (by decide)
  simpa using h

/-! ## Claim C8 -/

/-- Claim C8: the truncation routine first trims; when the trimmed length
exceeds 200 it returns exactly the first 200 characters followed by `...`
(203 characters in all), and otherwise returns the trimmed string
unchanged. -/
theorem c8_truncation (s : String) :
    trimOutput s =
      (if 200 < (jsTrim s).length then takeChars 200 (jsTrim s) ++ "..."
       else jsTrim s) ∧
    (trimOutput s).length =
      (if 200 < (jsTrim s).length then 203 else (jsTrim s).length) := by
  constructor
  · simp only [trimOutput, SSH_OUTPUT_MAX_CHARS, gt_iff_lt]
  · simp only [trimOutput, SSH_OUTPUT_MAX_CHARS, gt_iff_lt]
    split
    case isTrue h =>
      have h1 : (takeChars 200 (jsTrim s)).length = 200 := by
        show ((jsTrim s).data.take 200).length = 200
        rw [List.length_take]
        have h2 : 200 < (jsTrim s).data.length := h
        omega
      rw [length_append_dots, h1]
    case isFalse h => rfl

/-! ## Claim C7 -/

/-- A parsed port never exceeds 65535. -/
theorem parsePort_le (cs : List Char) (n : Nat)
    (h : parsePort cs = some (some n)) : n ≤ 65535 := by
  unfold parsePort at h
  split at h
  · nomatch h
  · split at h
    · split at h
      case isTrue hle => cases h; exact hle
      case isFalse _ => nomatch h
    · nomatch h

/-- Every URL produced by `parseAuthority` has an absent port or one at most
65535. -/
theorem parseAuthority_port (scheme : String) (r : List Char) (u : URLRec)
    (h : parseAuthority scheme r = some u) :
    u.port = none ∨ ∃ n, u.port = some n ∧ n ≤ 65535 := by
  simp only [parseAuthority] at h
  split at h
  · nomatch h
  · split at h
    · nomatch h
    · split at h
      case h_1 => nomatch h
      case h_2 port heq =>
        cases h
        cases port with
        | none => exact Or.inl rfl
        | some n => exact Or.inr ⟨n, rfl, parsePort_le _ n heq⟩

/-- Every URL produced by `parseURL` has an absent port or one at most
65535. -/
theorem parseURL_port (input : String) (u : URLRec)
    (h : parseURL input = some u) :
    u.port = none ∨ ∃ n, u.port = some n ∧ n ≤ 65535 := by
  simp only [parseURL] at h
  split at h
  · nomatch h
  · split at h
    · nomatch h
    · split at h
      · nomatch h
      · split at h
        case h_1 u' heq =>
          split at h
          · nomatch h
          · cases h
            split at heq
            · exact parseAuthority_port _ _ _ heq
            · cases heq; exact Or.inl rfl
        case h_2 heq => nomatch h

/-- Claim C7 (amended): every successfully parsed target has a port that is
absent or an integer at most 65535; the code also accepts port 0, so the
lower bound 1 of the claim does not hold. -/
theorem c7_port_range (s : String) (pt : ParsedTarget)
    (h : parseSshUrl s = Except.ok pt) :
    pt.port = none ∨ ∃ n, pt.port = some n ∧ n ≤ 65535 := by
  simp only [parseSshUrl] at h
  split at h
  · nomatch h
  case h_2 u heq =>
    split at h
    · nomatch h
    · split at h
      · nomatch h
      · split at h
        · cases h
          exact parseURL_port s u heq
        · split at h
          · nomatch h
          · cases h
            exact parseURL_port s u heq

/-- Claim C7 counterexample: `ssh://host:0` parses successfully with port 0,
which is outside `[1, 65535]`. -/
theorem c7_counterexample :
    parseSshUrl "ssh://host:0" = Except.ok ⟨"host", some 0⟩ ∧
    ¬ ((⟨"host", some 0⟩ : ParsedTarget).port = none ∨
      ∃ n, (⟨"host", some 0⟩ : ParsedTarget).port = some n ∧ 1 ≤ n ∧ n ≤ 65535) := by
  refine ⟨by decide, ?_⟩
  rintro (h | ⟨n, hn, h1, _⟩)
  · nomatch h
  · have h2 : (some 0 : Option Nat) = some n := hn
    injection h2 with h3
    omega

/-- Witness for C7 at `ssh://host:2222`. -/
theorem c7_witness :
    (⟨"host", some 2222⟩ : ParsedTarget).port = none ∨
      ∃ n, (⟨"host", some 2222⟩ : ParsedTarget).port = some n ∧ n ≤ 65535 := by
  exact c7_port_range "ssh://host:2222" ⟨"host", some 2222⟩ (by decide)

/-! ## Claim C6 -/

/-- Claim C6 (amended): the parser fails with its three invalid-target
errors exactly on inputs that are not well-formed URLs, have a scheme other
than `ssh:`, or lack a hostname, respectively; a URL that passes all three
checks can nevertheless fail with a URI decoding error when its username
contains a malformed percent-escape; otherwise it succeeds with
`userHost = <decoded user>@<host>` (or `<host>` without a username) and the
URL's port when present; and the four cited inputs behave as claimed. -/
theorem c6_target_parsing :
    (∀ s : String,
      (parseSshUrl s = Except.error SshUrlError.invalidUrl ↔ parseURL s = none) ∧
      (parseSshUrl s = Except.error SshUrlError.wrongScheme ↔
        ∃ u, parseURL s = some u ∧ u.scheme ≠ "ssh") ∧
      (parseSshUrl s = Except.error SshUrlError.noHostname ↔
        ∃ u, parseURL s = some u ∧ u.scheme = "ssh" ∧ u.hostname = "") ∧
      (parseSshUrl s = Except.error SshUrlError.uriError ↔
        ∃ u, parseURL s = some u ∧ u.scheme = "ssh" ∧ u.hostname ≠ "" ∧
          u.username ≠ "" ∧ decodeURIComponentOpt u.username = none) ∧
      (∀ u, parseURL s = some u → u.scheme = "ssh" → u.hostname ≠ "" →
        (u.username = "" → parseSshUrl s = Except.ok ⟨u.hostname, u.port⟩) ∧
        (∀ d, u.username ≠ "" → decodeURIComponentOpt u.username = some d →
          parseSshUrl s = Except.ok ⟨d ++ "@" ++ u.hostname, u.port⟩))) ∧
    parseSshUrl "ssh://user@host:2222" = Except.ok ⟨"user@host", some 2222⟩ ∧
    parseSshUrl "ssh://host" = Except.ok ⟨"host", none⟩ ∧
    parseSshUrl "http://host" = Except.error SshUrlError.wrongScheme ∧
    parseSshUrl "not a url" = Except.error SshUrlError.invalidUrl := by
  refine ⟨?_, by decide, by decide, by decide, by decide⟩
  intro s
  rcases hp : parseURL s with _ | u
  · simp [parseSshUrl, hp]
  · by_cases hs : u.scheme = "ssh"
    · by_cases hh : u.hostname = ""
      · simp [parseSshUrl, hp, hs, hh]
      · by_cases hu : u.username = ""
        · simp [parseSshUrl, hp, hs, hh, hu]
        · rcases hd : decodeURIComponentOpt u.username with _ | d
          · simp [parseSshUrl, hp, hs, hh, hu, hd]
          · simp [parseSshUrl, hp, hs, hh, hu, hd]
    · simp [parseSshUrl, hp, hs]

/-- Claim C6 counterexample: `ssh://us%er@host` is a well-formed URL with
scheme `ssh:` and a hostname — none of the three cited failure conditions —
yet the parser neither succeeds nor fails with an invalid-target error: the
malformed percent-escape in the username makes `decodeURIComponent` throw a
`URIError`. -/
theorem c6_counterexample :
    parseSshUrl "ssh://us%er@host" = Except.error SshUrlError.uriError ∧
    parseURL "ssh://us%er@host" = some ⟨"ssh", "us%er", "host", none⟩ ∧
    (∀ pt : ParsedTarget, parseSshUrl "ssh://us%er@host" ≠ Except.ok pt) ∧
    SshUrlError.uriError ≠ SshUrlError.invalidUrl ∧
    SshUrlError.uriError ≠ SshUrlError.wrongScheme ∧
    SshUrlError.uriError ≠ SshUrlError.noHostname := by
  refine ⟨by decide, by decide, ?_, by decide, by decide, by decide⟩
  intro pt h
  rw [show parseSshUrl "ssh://us%er@host" = Except.error SshUrlError.uriError from
    by decide] at h
  nomatch h

/-- Witness for C6's success clause at `ssh://host/path`. -/
theorem c6_witness :
    parseSshUrl "ssh://host/path" = Except.ok ⟨"host", none⟩ := by
  exact ((c6_target_parsing.1 "ssh://host/path").2.2.2.2 ⟨"ssh", "", "host", none⟩
    (by decide) rfl (by decide)).1 rfl

/-! ## Claim C9 -/

/-- The `x || "not running"` fallback keeps a bounded string bounded. -/
theorem orNotRunning_le (x : String) (hx : x.length ≤ 203) :
    (if x = "" then ("not running" : String) else x).length ≤ 203 := by
  split
  · decide
  · exact hx

/-- A status of at most 203 characters bounds the wrapped message by the
name length plus 218. -/
theorem svcIsMsg_le (name x : String) (hx : x.length ≤ 203) :
    (svcIsMsg name x).length ≤ name.length + 218 := by
  rw [svcIsMsg_length]
  omega

/-- Shorthand: 203-bounded strings are within every message budget. -/
theorem le_budget (name x : String) (hx : x.length ≤ 203) :
    x.length ≤ name.length + 218 := by omega

/-- Claim C9 (amended): every message a strategy produces — the rejection
message on any failing path and the heartbeat message on success — has
length at most 218 plus the service-name length; raw subprocess output
contributes at most 203 characters (200 plus the `...` marker), but the
fixed `Service '<name>' is <...>.` wrapper around the truncated diagnostic
makes the claimed absolute bound of 203 characters unattainable. -/
theorem c9_message_bound (exec : SpawnCmd → ExecOutcome) (name url : String)
    (hb : Heartbeat) (m : String) :
    ((checkLinux exec name hb).result = Except.error m →
      m.length ≤ name.length + 218) ∧
    ((checkWindows exec name hb).result = Except.error m →
      m.length ≤ name.length + 218) ∧
    ((checkLinuxViaSSH exec name url hb).result = Except.error m →
      m.length ≤ name.length + 218) ∧
    ((checkWindowsViaSSH exec name url hb).result = Except.error m →
      m.length ≤ name.length + 218) ∧
    ((checkLinux exec name hb).result = Except.ok () →
      (checkLinux exec name hb).hb.msg.length ≤ name.length + 218) ∧
    ((checkWindows exec name hb).result = Except.ok () →
      (checkWindows exec name hb).hb.msg.length ≤ name.length + 218) ∧
    ((checkLinuxViaSSH exec name url hb).result = Except.ok () →
      (checkLinuxViaSSH exec name url hb).hb.msg.length ≤ name.length + 218) ∧
    ((checkWindowsViaSSH exec name url hb).result = Except.ok () →
      (checkWindowsViaSSH exec name url hb).hb.msg.length ≤ name.length + 218) := by
  have hLMsg : linuxInvalidMsg.length ≤ 218 := by decide
  have hWMsg : windowsInvalidMsg.length ≤ 218 := by decide
  refine ⟨?_, ?_, ?_, ?_, ?_, ?_, ?_, ?_⟩
  · simp only [checkLinux]
    split
    · split
      · intro h
        injection h with h'
        subst h'
        split
        · exact svcIsMsg_le name "not running" (by decide)
        · exact le_budget name _ (trimOutput_length_le _)
      · intro h; nomatch h
    · intro h
      injection h with h'
      subst h'
      omega
  · simp only [checkWindows]
    split
    · split
      · intro h
        injection h with h'
        subst h'
        exact svcIsMsg_le name "not running/found" (by decide)
      · split
        · intro h; nomatch h
        · intro h
          injection h with h'
          subst h'
          exact svcIsMsg_le name _ (trimOutput_length_le _)
    · intro h
      injection h with h'
      subst h'
      omega
  · simp only [checkLinuxViaSSH]
    split
    · split
      · intro h
        injection h with h'
        subst h'
        exact svcIsMsg_le name _ (orNotRunning_le _ (trimOutput_length_le _))
      · split
        · intro h
          injection h with h'
          subst h'
          exact svcIsMsg_le name _ (orNotRunning_le _ (trimOutput_length_le _))
        · intro h; nomatch h
    · intro h
      injection h with h'
      subst h'
      omega
  · simp only [checkWindowsViaSSH]
    split
    · split
      · intro h
        injection h with h'
        subst h'
        exact svcIsMsg_le name "not running/found" (by decide)
      · split
        · intro h; nomatch h
        · intro h
          injection h with h'
          subst h'
          exact svcIsMsg_le name _ (orNotRunning_le _ (trimOutput_length_le _))
    · intro h
      injection h with h'
      subst h'
      omega
  · intro hok
    rcases checkLinux_cases exec name hb with ⟨_, hhb⟩ | ⟨⟨m', hm'⟩, _⟩
    · rw [hhb]
      show (runningMsg name).length ≤ name.length + 218
      rw [runningMsg_length]
      omega
    · rw [hm'] at hok; nomatch hok
  · intro hok
    rcases checkWindows_cases exec name hb with ⟨_, hhb⟩ | ⟨⟨m', hm'⟩, _⟩
    · rw [hhb]
      show (runningMsg name).length ≤ name.length + 218
      rw [runningMsg_length]
      omega
    · rw [hm'] at hok; nomatch hok
  · intro hok
    rcases checkLinuxViaSSH_cases exec name url hb with ⟨_, hhb⟩ | ⟨⟨m', hm'⟩, _⟩
    · rw [hhb]
      show (runningMsg name).length ≤ name.length + 218
      rw [runningMsg_length]
      omega
    · rw [hm'] at hok; nomatch hok
  · intro hok
    rcases checkWindowsViaSSH_cases exec name url hb with ⟨_, hhb⟩ | ⟨⟨m', hm'⟩, _⟩
    · rw [hhb]
      show (runningMsg name).length ≤ name.length + 218
      rw [runningMsg_length]
      omega
    · rw [hm'] at hok; nomatch hok

set_option maxRecDepth 8000 in
/-- Claim C9 counterexample: a one-character service name and a
210-character stderr make the remote Linux strategy reject with a message
of 219 characters — the truncated diagnostic (203 characters) plus the
16-character wrapper — exceeding the claimed bound of 203. -/
theorem c9_counterexample :
    (checkLinuxViaSSH (fun _ => ⟨some "boom", "", longDiag⟩) "x" "ssh://host"
        ⟨0, ""⟩).result = Except.error (svcIsMsg "x" (trimOutput longDiag)) ∧
    (svcIsMsg "x" (trimOutput longDiag)).length = 219 ∧
    ¬ (svcIsMsg "x" (trimOutput longDiag)).length ≤ 203 := by
  refine ⟨by decide, by decide, by decide⟩

/-- Witness for C9 at a concrete failing local run. -/
theorem c9_witness :
    ("Service 'nginx' is not running." : String).length ≤
      ("nginx" : String).length + 218 := by
  exact (c9_message_bound (fun _ => ⟨some "e", "", ""⟩) "nginx" "ssh://host" ⟨0, ""⟩
    "Service 'nginx' is not running.").1 (by decide)

end SystemService
